import Mathlib

/-!
Shallow embedding of the clawmates-backend HTTP handlers (src/index.ts).

Modelling conventions:
* Request-body fields are `Option` values; `none` stands for an absent (or
  JSON-null) field, which the handlers treat alike via `??` / `||`.
* Timestamps are natural numbers; every `new Date()` in a handler becomes an
  explicit `now` parameter (two sequential reads of the clock become two
  parameters related by monotonicity where a claim needs it).
* The database is a record of lists, one per table; the ORM's `findUnique`,
  `findFirst`, `findMany`, `update`, `create` and `upsert` calls become the
  corresponding list operations.  Generated primary keys are modelled as the
  table length at insertion time.
* JavaScript `x ?? y` on trait fields becomes `nullish`; `x || d` on strings
  becomes `jsOrStr` (the empty string is falsy); `x || d` on numbers becomes
  `jsOrInt` / `jsOrNat` (zero is falsy); `x || null` becomes `jsOrNullStr`.
* In an ORM update, a field whose value is `undefined` is skipped (the stored
  value is kept): that is `updOpt` for nullable columns and `updVal` for
  non-nullable ones.
* Socket.io emissions become an explicit list of `Emission` values returned by
  the handler.
-/

namespace Clawmates

/-- JavaScript `a ?? b` (nullish coalescing) on optional values. -/
def nullish (a b : Option α) : Option α :=
  match a with
  | some v => some v
  | none => b

/-- ORM update semantics for a nullable column: an `undefined` (absent) input
leaves the stored value unchanged. -/
def updOpt (v old : Option α) : Option α :=
  match v with
  | some x => some x
  | none => old

/-- ORM update semantics for a non-nullable column: an `undefined` (absent)
input leaves the stored value unchanged. -/
def updVal (v : Option α) (old : α) : α :=
  match v with
  | some x => x
  | none => old

/-- JavaScript `s || d` for strings: the empty string is falsy. -/
def jsOrStr (v : Option String) (d : String) : String :=
  match v with
  | some s => if s = "" then d else s
  | none => d

/-- JavaScript `n || d` for integers: zero is falsy. -/
def jsOrInt (v : Option Int) (d : Int) : Int :=
  match v with
  | some n => if n = 0 then d else n
  | none => d

/-- JavaScript `n || d` for naturals (used for the parsed query limit, where a
failed parse is `none`): zero is falsy. -/
def jsOrNat (v : Option Nat) (d : Nat) : Nat :=
  match v with
  | some n => if n = 0 then d else n
  | none => d

/-- JavaScript `s || null` for strings: absent and empty both become null. -/
def jsOrNullStr (v : Option String) : Option String :=
  match v with
  | some s => if s = "" then none else some s
  | none => none

/-- Replace the first element satisfying `p` by its image under `f`
(the ORM's `update where` on a unique key). -/
def updateFirst (p : α → Bool) (f : α → α) : List α → List α
  | [] => []
  | x :: xs => if p x then f x :: xs else x :: updateFirst p f xs

/-- Descending comparison by a key: the relation the feed and highlight
queries sort by. -/
def keyGe (key : α → β) [LinearOrder β] (a b : α) : Prop :=
  key b ≤ key a

instance keyGeDecidable (key : α → β) [LinearOrder β] : DecidableRel (keyGe key) :=
  fun a b => inferInstanceAs (Decidable (key b ≤ key a))

instance keyGeTotal (key : α → β) [LinearOrder β] : IsTotal α (keyGe key) :=
  ⟨fun a b => (le_total (key b) (key a)).imp id id⟩

instance keyGeTrans (key : α → β) [LinearOrder β] : IsTrans α (keyGe key) :=
  ⟨fun _ _ _ hab hbc => le_trans hbc hab⟩

/-- Sort a list by a key, largest first (`orderBy: { k: "desc" }`, and the
JavaScript comparator `(a, b) => b.k - a.k`). -/
def sortDescBy (key : α → β) [LinearOrder β] (l : List α) : List α :=
  List.insertionSort (keyGe key) l

/-! ## Data model: stored records -/

/-- A stored Agent row. -/
structure Agent where
  id : String := ""
  name : String := ""
  gender : Option String := none
  pronouns : Option String := none
  datingPreference : Option String := none
  bio : Option String := none
  interests : Option String := none
  dealBreakers : Option String := none
  idealPartner : Option String := none
  openness : Option Int := none
  conscientiousness : Option Int := none
  extraversion : Option Int := none
  agreeableness : Option Int := none
  neuroticism : Option Int := none
  flirtatiousness : Option Int := none
  jealousy : Option Int := none
  commitment : Option Int := none
  emotionalExpression : Option Int := none
  playfulness : Option Int := none
  attachmentStyle : Option String := none
  loveLanguage : Option String := none
  status : String := "single"
  currentPartner : Option String := none
  lastActive : Nat := 0
  createdAt : Nat := 0
deriving Repr, DecidableEq

/-- A stored Relationship row. -/
structure Relationship where
  id : Nat := 0
  agent1Id : String := ""
  agent2Id : String := ""
  compatibilityScore : Int := 50
  status : String := "talking"
  healthScore : Option Int := none
  endedAt : Option Nat := none
  createdAt : Nat := 0
  updatedAt : Nat := 0
deriving Repr, DecidableEq

/-- A stored Conversation row. -/
structure Conversation where
  id : String := ""
  relationshipId : Nat := 0
  lastMessageAt : Option Nat := none
  dramaScore : Option Int := none
  viralPotential : Option Int := none
deriving Repr, DecidableEq

/-- A stored Message row. -/
structure Message where
  id : Nat := 0
  conversationId : String := ""
  fromId : String := ""
  toId : String := ""
  content : String := ""
  sentiment : Option String := none
  createdAt : Nat := 0
deriving Repr, DecidableEq

/-- A stored Event row (the many-to-many agent connections are kept as the
id list the handler stores in `agentsInvolved`). -/
structure Event where
  id : Nat := 0
  type : String := ""
  agentsInvolved : List String := []
  description : Option String := none
  dramaScore : Int := 50
  isPublic : Bool := true
  isFeatured : Bool := false
  relationshipId : Option Nat := none
  createdAt : Nat := 0
deriving Repr, DecidableEq

/-- A stored WaitlistEntry row. -/
structure WaitlistEntry where
  id : Nat := 0
  email : String := ""
  createdAt : Nat := 0
deriving Repr, DecidableEq

/-- The whole store. -/
structure DB where
  agents : List Agent := []
  relationships : List Relationship := []
  conversations : List Conversation := []
  messages : List Message := []
  events : List Event := []
  waitlist : List WaitlistEntry := []
deriving Repr, DecidableEq

/-! ## Request bodies -/

/-- The nested `bigFive` object of an agent payload. -/
structure BigFiveBody where
  openness : Option Int := none
  conscientiousness : Option Int := none
  extraversion : Option Int := none
  agreeableness : Option Int := none
  neuroticism : Option Int := none
deriving Repr, DecidableEq

/-- The nested `romance` object of an agent payload. -/
structure RomanceBody where
  flirtatiousness : Option Int := none
  jealousy : Option Int := none
  commitment : Option Int := none
  emotionalExpression : Option Int := none
  playfulness : Option Int := none
deriving Repr, DecidableEq

/-- An agent payload as read by POST /api/agents and POST /api/agents/bulk. -/
structure AgentBody where
  id : String
  name : Option String := none
  gender : Option String := none
  pronouns : Option String := none
  datingPreference : Option String := none
  bio : Option String := none
  interests : Option String := none
  dealBreakers : Option String := none
  idealPartner : Option String := none
  openness : Option Int := none
  conscientiousness : Option Int := none
  extraversion : Option Int := none
  agreeableness : Option Int := none
  neuroticism : Option Int := none
  flirtatiousness : Option Int := none
  jealousy : Option Int := none
  commitment : Option Int := none
  emotionalExpression : Option Int := none
  playfulness : Option Int := none
  attachmentStyle : Option String := none
  loveLanguage : Option String := none
  status : Option String := none
  bigFive : Option BigFiveBody := none
  romance : Option RomanceBody := none
deriving Repr, DecidableEq

/-! ## GET /api/agents/:id -/

/-- GET /api/agents/:id: `findUnique` on the id (the relationship includes do
not alter the agent's own fields and are elided); `none` is the 404 case. -/
def getAgentById (db : DB) (id : String) : Option Agent :=
  db.agents.find? (fun a => a.id == id)

/-! ## POST /api/agents -/

/-- The `update` block of the upsert in POST /api/agents: flat trait fields
preferred over the nested-object fallback, name falsy-defaulted to the empty
string, status falsy-defaulted to "single"; absent passthrough fields are
skipped by the ORM and keep their stored values. -/
def agentUpdateData (d : AgentBody) (a : Agent) : Agent :=
  { a with
    name := jsOrStr d.name ""
    gender := updOpt d.gender a.gender
    pronouns := updOpt d.pronouns a.pronouns
    datingPreference := updOpt d.datingPreference a.datingPreference
    bio := updOpt d.bio a.bio
    interests := updOpt d.interests a.interests
    dealBreakers := updOpt d.dealBreakers a.dealBreakers
    idealPartner := updOpt d.idealPartner a.idealPartner
    openness := updOpt (nullish d.openness (d.bigFive.bind BigFiveBody.openness)) a.openness
    conscientiousness := updOpt (nullish d.conscientiousness (d.bigFive.bind BigFiveBody.conscientiousness)) a.conscientiousness
    extraversion := updOpt (nullish d.extraversion (d.bigFive.bind BigFiveBody.extraversion)) a.extraversion
    agreeableness := updOpt (nullish d.agreeableness (d.bigFive.bind BigFiveBody.agreeableness)) a.agreeableness
    neuroticism := updOpt (nullish d.neuroticism (d.bigFive.bind BigFiveBody.neuroticism)) a.neuroticism
    flirtatiousness := updOpt (nullish d.flirtatiousness (d.romance.bind RomanceBody.flirtatiousness)) a.flirtatiousness
    jealousy := updOpt (nullish d.jealousy (d.romance.bind RomanceBody.jealousy)) a.jealousy
    commitment := updOpt (nullish d.commitment (d.romance.bind RomanceBody.commitment)) a.commitment
    emotionalExpression := updOpt (nullish d.emotionalExpression (d.romance.bind RomanceBody.emotionalExpression)) a.emotionalExpression
    playfulness := updOpt (nullish d.playfulness (d.romance.bind RomanceBody.playfulness)) a.playfulness
    attachmentStyle := updOpt d.attachmentStyle a.attachmentStyle
    loveLanguage := updOpt d.loveLanguage a.loveLanguage
    status := jsOrStr d.status "single" }

/-- The `create` block of the upsert in POST /api/agents (identical field
resolution; server assigns the creation timestamps). -/
def agentCreateData (d : AgentBody) (now : Nat) : Agent :=
  { id := d.id
    name := jsOrStr d.name ""
    gender := d.gender
    pronouns := d.pronouns
    datingPreference := d.datingPreference
    bio := d.bio
    interests := d.interests
    dealBreakers := d.dealBreakers
    idealPartner := d.idealPartner
    openness := nullish d.openness (d.bigFive.bind BigFiveBody.openness)
    conscientiousness := nullish d.conscientiousness (d.bigFive.bind BigFiveBody.conscientiousness)
    extraversion := nullish d.extraversion (d.bigFive.bind BigFiveBody.extraversion)
    agreeableness := nullish d.agreeableness (d.bigFive.bind BigFiveBody.agreeableness)
    neuroticism := nullish d.neuroticism (d.bigFive.bind BigFiveBody.neuroticism)
    flirtatiousness := nullish d.flirtatiousness (d.romance.bind RomanceBody.flirtatiousness)
    jealousy := nullish d.jealousy (d.romance.bind RomanceBody.jealousy)
    commitment := nullish d.commitment (d.romance.bind RomanceBody.commitment)
    emotionalExpression := nullish d.emotionalExpression (d.romance.bind RomanceBody.emotionalExpression)
    playfulness := nullish d.playfulness (d.romance.bind RomanceBody.playfulness)
    attachmentStyle := d.attachmentStyle
    loveLanguage := d.loveLanguage
    status := jsOrStr d.status "single"
    currentPartner := none
    lastActive := now
    createdAt := now }

/-- The table after `upsert where id`: the first row with the payload's id is
replaced by the update image, otherwise the create image is appended. -/
def upsertAgentList (d : AgentBody) (now : Nat) : List Agent → List Agent
  | [] => [agentCreateData d now]
  | a :: rest =>
    if a.id == d.id then agentUpdateData d a :: rest
    else a :: upsertAgentList d now rest

/-- The record the upsert returns (and stores). -/
def upsertAgentResult (agents : List Agent) (d : AgentBody) (now : Nat) : Agent :=
  match agents.find? (fun a => a.id == d.id) with
  | some a => agentUpdateData d a
  | none => agentCreateData d now

/-- POST /api/agents: upsert by id, respond with the upserted record. -/
def postAgents (db : DB) (d : AgentBody) (now : Nat) : DB × Agent :=
  ({ db with agents := upsertAgentList d now db.agents },
   upsertAgentResult db.agents d now)

/-! ## POST /api/agents/bulk -/

/-- Modelled from the spec: the Agent table's schema (not under src/) supplies
the status column's stored default for rows created without an explicit
status; the spec's agent status enum and the single-agent endpoint's default
name it "single". -/
def agentStatusDefault : String := "single"

/-- The `update` block of the upsert in POST /api/agents/bulk: the nested
object is preferred over the flat field, and no status field is written. -/
def bulkAgentUpdateData (d : AgentBody) (a : Agent) : Agent :=
  { a with
    name := jsOrStr d.name ""
    gender := updOpt d.gender a.gender
    pronouns := updOpt d.pronouns a.pronouns
    datingPreference := updOpt d.datingPreference a.datingPreference
    bio := updOpt d.bio a.bio
    interests := updOpt d.interests a.interests
    dealBreakers := updOpt d.dealBreakers a.dealBreakers
    idealPartner := updOpt d.idealPartner a.idealPartner
    openness := updOpt (nullish (d.bigFive.bind BigFiveBody.openness) d.openness) a.openness
    conscientiousness := updOpt (nullish (d.bigFive.bind BigFiveBody.conscientiousness) d.conscientiousness) a.conscientiousness
    extraversion := updOpt (nullish (d.bigFive.bind BigFiveBody.extraversion) d.extraversion) a.extraversion
    agreeableness := updOpt (nullish (d.bigFive.bind BigFiveBody.agreeableness) d.agreeableness) a.agreeableness
    neuroticism := updOpt (nullish (d.bigFive.bind BigFiveBody.neuroticism) d.neuroticism) a.neuroticism
    flirtatiousness := updOpt (nullish (d.romance.bind RomanceBody.flirtatiousness) d.flirtatiousness) a.flirtatiousness
    jealousy := updOpt (nullish (d.romance.bind RomanceBody.jealousy) d.jealousy) a.jealousy
    commitment := updOpt (nullish (d.romance.bind RomanceBody.commitment) d.commitment) a.commitment
    emotionalExpression := updOpt (nullish (d.romance.bind RomanceBody.emotionalExpression) d.emotionalExpression) a.emotionalExpression
    playfulness := updOpt (nullish (d.romance.bind RomanceBody.playfulness) d.playfulness) a.playfulness
    attachmentStyle := updOpt d.attachmentStyle a.attachmentStyle
    loveLanguage := updOpt d.loveLanguage a.loveLanguage }

/-- The `create` block of the upsert in POST /api/agents/bulk: nested object
preferred over flat field; no status field is written, so the created row
carries the store's default. -/
def bulkAgentCreateData (d : AgentBody) (now : Nat) : Agent :=
  { id := d.id
    name := jsOrStr d.name ""
    gender := d.gender
    pronouns := d.pronouns
    datingPreference := d.datingPreference
    bio := d.bio
    interests := d.interests
    dealBreakers := d.dealBreakers
    idealPartner := d.idealPartner
    openness := nullish (d.bigFive.bind BigFiveBody.openness) d.openness
    conscientiousness := nullish (d.bigFive.bind BigFiveBody.conscientiousness) d.conscientiousness
    extraversion := nullish (d.bigFive.bind BigFiveBody.extraversion) d.extraversion
    agreeableness := nullish (d.bigFive.bind BigFiveBody.agreeableness) d.agreeableness
    neuroticism := nullish (d.bigFive.bind BigFiveBody.neuroticism) d.neuroticism
    flirtatiousness := nullish (d.romance.bind RomanceBody.flirtatiousness) d.flirtatiousness
    jealousy := nullish (d.romance.bind RomanceBody.jealousy) d.jealousy
    commitment := nullish (d.romance.bind RomanceBody.commitment) d.commitment
    emotionalExpression := nullish (d.romance.bind RomanceBody.emotionalExpression) d.emotionalExpression
    playfulness := nullish (d.romance.bind RomanceBody.playfulness) d.playfulness
    attachmentStyle := d.attachmentStyle
    loveLanguage := d.loveLanguage
    status := agentStatusDefault
    currentPartner := none
    lastActive := now
    createdAt := now }

/-- One bulk upsert step applied to the agent table. -/
def bulkUpsertAgentList (d : AgentBody) (now : Nat) : List Agent → List Agent
  | [] => [bulkAgentCreateData d now]
  | a :: rest =>
    if a.id == d.id then bulkAgentUpdateData d a :: rest
    else a :: bulkUpsertAgentList d now rest

/-- The record one bulk upsert step returns (and stores). -/
def bulkUpsertAgentResult (agents : List Agent) (d : AgentBody) (now : Nat) : Agent :=
  match agents.find? (fun a => a.id == d.id) with
  | some a => bulkAgentUpdateData d a
  | none => bulkAgentCreateData d now

/-- The sequential loop of POST /api/agents/bulk: upsert each payload in
order, collecting the upserted records. -/
def bulkLoop (now : Nat) : List Agent → List AgentBody → List Agent × List Agent
  | agents, [] => (agents, [])
  | agents, d :: ds =>
    let r := bulkUpsertAgentResult agents d now
    let agents1 := bulkUpsertAgentList d now agents
    let (fin, rs) := bulkLoop now agents1 ds
    (fin, r :: rs)

/-- The response of POST /api/agents/bulk. -/
inductive BulkResp where
  | badRequest (error : String)
  | ok (success : Bool) (count : Nat) (agents : List Agent)
deriving Repr, DecidableEq

/-- POST /api/agents/bulk: a non-array `agents` value is a 400; otherwise the
payloads are upserted in order and the response carries the count and the
upserted records. -/
def postAgentsBulk (db : DB) (body : Option (List AgentBody)) (now : Nat) :
    DB × BulkResp :=
  match body with
  | none => (db, .badRequest "agents must be an array")
  | some l =>
    let (agents1, results) := bulkLoop now db.agents l
    ({ db with agents := agents1 }, .ok true results.length results)

/-! ## PUT /api/agents/:id/status -/

/-- PUT /api/agents/:id/status: `update where id` setting status (skipped when
absent), currentPartner to the given value or null (falsy clears it), and
lastActive to now; a missing agent is the thrown-and-500 case (`none`). -/
def putAgentStatus (db : DB) (id : String) (status currentPartner : Option String)
    (now : Nat) : DB × Option Agent :=
  match db.agents.find? (fun a => a.id == id) with
  | none => (db, none)
  | some a =>
    let a1 : Agent :=
      { a with
        status := updVal status a.status
        currentPartner := jsOrNullStr currentPartner
        lastActive := now }
    ({ db with
        agents := updateFirst (fun x => x.id == id)
          (fun x =>
            { x with
              status := updVal status x.status
              currentPartner := jsOrNullStr currentPartner
              lastActive := now }) db.agents },
     some a1)

/-! ## Relationships -/

/-- A relationship with both agents loaded (`include: { agent1, agent2 }`). -/
structure RelExpanded where
  rel : Relationship
  agent1 : Option Agent
  agent2 : Option Agent
deriving Repr, DecidableEq

/-- Load both agents of a relationship from the store. -/
def expandRel (db : DB) (r : Relationship) : RelExpanded :=
  { rel := r
    agent1 := db.agents.find? (fun a => a.id == r.agent1Id)
    agent2 := db.agents.find? (fun a => a.id == r.agent2Id) }

/-- The `OR` filter of the recovery lookup in POST /api/relationships: the
row's pair equals the payload's pair in either order. -/
def matchesPair (a b : String) (r : Relationship) : Bool :=
  (r.agent1Id == a && r.agent2Id == b) || (r.agent1Id == b && r.agent2Id == a)

/-- Modelled from the spec: the Relationship table's uniqueness constraint
(schema not under src/) admits at most one relationship per unordered agent
pair, so a create whose pair already exists in either order fails with the
constraint-violation code the handler catches. -/
def pairConstraintViolated (rels : List Relationship) (a b : String) : Bool :=
  rels.any (matchesPair a b)

/-- The body of POST /api/relationships. -/
structure RelBody where
  agent1Id : String
  agent2Id : String
  compatibilityScore : Option Int := none
  status : Option String := none
deriving Repr, DecidableEq

/-- POST /api/relationships: create with falsy-defaulted score 50 and status
"talking"; on a pair-uniqueness violation, find the existing row matching the
pair in either order and return it instead. -/
def postRelationships (db : DB) (body : RelBody) (now : Nat) :
    DB × Option RelExpanded :=
  if pairConstraintViolated db.relationships body.agent1Id body.agent2Id then
    (db,
     (db.relationships.find? (matchesPair body.agent1Id body.agent2Id)).map
       (expandRel db))
  else
    let r : Relationship :=
      { id := db.relationships.length
        agent1Id := body.agent1Id
        agent2Id := body.agent2Id
        compatibilityScore := jsOrInt body.compatibilityScore 50
        status := jsOrStr body.status "talking"
        healthScore := none
        endedAt := none
        createdAt := now
        updatedAt := now }
    ({ db with relationships := db.relationships ++ [r] },
     some (expandRel db r))

/-! ## Emissions -/

/-- A payload broadcast on a topic. -/
inductive EmitPayload where
  | rel (r : RelExpanded)
  | msgEnvelope (type : String) (data : Message) (timestamp : Nat)
  | conv (c : Conversation)
deriving Repr, DecidableEq

/-- One socket emission: topic namespace, event name, payload. -/
structure Emission where
  topic : String
  event : String
  payload : EmitPayload
deriving Repr, DecidableEq

/-- The body of PUT /api/relationships/:id; the end timestamp is the value
parsed from the input date string. -/
structure RelUpdateBody where
  status : Option String := none
  healthScore : Option Int := none
  endedAt : Option Nat := none
deriving Repr, DecidableEq

/-- The conditional `data` object of PUT /api/relationships/:id: only fields
present in the body are applied. -/
def relUpdateData (b : RelUpdateBody) (r : Relationship) : Relationship :=
  { r with
    status := updVal b.status r.status
    healthScore := updOpt b.healthScore r.healthScore
    endedAt := updOpt b.endedAt r.endedAt }

/-- PUT /api/relationships/:id: partial update, then broadcast the updated,
agent-expanded record to the villa-feed topic as "relationship-update"; a
missing id is the thrown-and-500 case (no write, no emission). -/
def putRelationship (db : DB) (id : Nat) (b : RelUpdateBody) :
    DB × Option RelExpanded × List Emission :=
  match db.relationships.find? (fun r => r.id == id) with
  | none => (db, none, [])
  | some r =>
    let r1 := relUpdateData b r
    let db1 :=
      { db with
        relationships :=
          updateFirst (fun x => x.id == id) (relUpdateData b) db.relationships }
    let ex := expandRel db1 r1
    (db1, some ex, [⟨"villa-feed", "relationship-update", .rel ex⟩])

/-- GET /api/relationships: only rows whose status is "talking" or "coupled",
newest-updated first, with both agents loaded. -/
def getRelationships (db : DB) : List RelExpanded :=
  (sortDescBy Relationship.updatedAt
      (db.relationships.filter
        (fun r => r.status == "talking" || r.status == "coupled"))).map
    (expandRel db)

/-! ## Messages -/

/-- The body of POST /api/messages. -/
structure MessageBody where
  conversationId : String
  fromId : String
  toId : String
  content : String
  sentiment : Option String := none
deriving Repr, DecidableEq

/-- POST /api/messages: create the message (sentiment falsy-defaulted to
null), then set the parent conversation's lastMessageAt to now, then broadcast
to the villa-feed topic as "new-message" in the message envelope.  The clock
is read twice: tCreate stamps the created message, tTouch the conversation
update.  A missing conversation makes the second step throw after the message
was already created (the non-transactional gap): the message stays, the
response is the 500 case and nothing is emitted. -/
def postMessage (db : DB) (b : MessageBody) (tCreate tTouch : Nat) :
    DB × Option Message × List Emission :=
  let m : Message :=
    { id := db.messages.length
      conversationId := b.conversationId
      fromId := b.fromId
      toId := b.toId
      content := b.content
      sentiment := jsOrNullStr b.sentiment
      createdAt := tCreate }
  let db1 := { db with messages := db.messages ++ [m] }
  match db1.conversations.find? (fun c => c.id == b.conversationId) with
  | none => (db1, none, [])
  | some _ =>
    let db2 :=
      { db1 with
        conversations :=
          updateFirst (fun c => c.id == b.conversationId)
            (fun c => { c with lastMessageAt := some tTouch }) db1.conversations }
    (db2, some m, [⟨"villa-feed", "new-message", .msgEnvelope "message" m tCreate⟩])

/-- Read a conversation row by id. -/
def getConversationById (db : DB) (id : String) : Option Conversation :=
  db.conversations.find? (fun c => c.id == id)

/-! ## Feed and highlights -/

/-- One villa-feed item: the discriminant string, the payload and the
timestamp the merge sorts by. -/
inductive FeedItem where
  | ev (e : Event)
  | msg (m : Message)
deriving Repr, DecidableEq

/-- The discriminant the handler tags each feed item with. -/
def FeedItem.type : FeedItem → String
  | .ev _ => "event"
  | .msg _ => "message"

/-- The timestamp the merge sorts by (the record's creation time). -/
def FeedItem.timestamp : FeedItem → Nat
  | .ev e => e.createdAt
  | .msg m => m.createdAt

/-- GET /api/villa-feed: parse the limit (absent or unparsable or 0 falls back
to 50), take up to limit most recent public events and up to limit most recent
messages, tag, merge, sort by timestamp descending, truncate to limit.
Relation includes on the payloads are elided. -/
def getVillaFeed (db : DB) (limitQ : Option Nat) : List FeedItem :=
  let limit := jsOrNat limitQ 50
  let events :=
    (sortDescBy Event.createdAt (db.events.filter Event.isPublic)).take limit
  let recentMessages :=
    (sortDescBy Message.createdAt db.messages).take limit
  let feed :=
    sortDescBy FeedItem.timestamp
      (events.map FeedItem.ev ++ recentMessages.map FeedItem.msg)
  feed.take limit

/-- GET /api/highlights: events that are featured or have drama score at least
75, ordered by drama score descending, capped at 20. -/
def getHighlights (db : DB) : List Event :=
  (sortDescBy Event.dramaScore
      (db.events.filter
        (fun e => e.isFeatured || decide (75 ≤ e.dramaScore)))).take 20

/-! ## Waitlist -/

/-- The response of POST /api/waitlist. -/
inductive WaitlistResp where
  | badRequest (error : String)
  | ok (success : Bool) (id : Nat)
deriving Repr, DecidableEq

/-- POST /api/waitlist: 400 when the email is missing, falsy or lacks "@";
otherwise create the unique-constrained row (Modelled from the spec: the
WaitlistEntry table's unique email constraint lives in the schema, not under
src/), mapping a duplicate email to the 400 "already registered" response. -/
def postWaitlist (db : DB) (email : Option String) (now : Nat) :
    DB × WaitlistResp :=
  match email with
  | none => (db, .badRequest "Invalid email")
  | some s =>
    if s == "" || !(s.contains '@') then (db, .badRequest "Invalid email")
    else if db.waitlist.any (fun e => e.email == s) then
      (db, .badRequest "Email already registered")
    else
      let e : WaitlistEntry := { id := db.waitlist.length, email := s, createdAt := now }
      ({ db with waitlist := db.waitlist ++ [e] }, .ok true e.id)

/-! ## Helper lemmas -/

theorem find?_upsertAgentList (d : AgentBody) (now : Nat) (agents : List Agent) :
    (upsertAgentList d now agents).find? (fun a => a.id == d.id) =
      some (upsertAgentResult agents d now) := by
  induction agents with
  | nil =>
    simp [upsertAgentList, upsertAgentResult, agentCreateData, List.find?]
  | cons a rest ih =>
    by_cases h : a.id = d.id
    · simp [upsertAgentList, upsertAgentResult, h, List.find?, agentUpdateData]
    · have hb : (a.id == d.id) = false := by simp [h]
      simp [upsertAgentList, upsertAgentResult, hb, List.find?, ih]

theorem find?_bulkUpsertAgentList (d : AgentBody) (now : Nat) (agents : List Agent) :
    (bulkUpsertAgentList d now agents).find? (fun a => a.id == d.id) =
      some (bulkUpsertAgentResult agents d now) := by
  induction agents with
  | nil =>
    simp [bulkUpsertAgentList, bulkUpsertAgentResult, bulkAgentCreateData, List.find?]
  | cons a rest ih =>
    by_cases h : a.id = d.id
    · simp [bulkUpsertAgentList, bulkUpsertAgentResult, h, List.find?, bulkAgentUpdateData]
    · have hb : (a.id == d.id) = false := by simp [h]
      simp [bulkUpsertAgentList, bulkUpsertAgentResult, hb, List.find?, ih]

theorem find?_updateFirst (p : α → Bool) (f : α → α) (l : List α)
    (hpf : ∀ a, p a = true → p (f a) = true) :
    (updateFirst p f l).find? p = (l.find? p).map f := by
  induction l with
  | nil => simp [updateFirst]
  | cons x xs ih =>
    by_cases h : p x = true
    · simp [updateFirst, h, List.find?, hpf x h]
    · have hb : p x = false := by simpa using h
      simp [updateFirst, hb, List.find?, ih]

theorem matchesPair_symm (a b : String) (r : Relationship) :
    matchesPair a b r = matchesPair b a r := by
  simp only [matchesPair]
  exact Bool.or_comm _ _

theorem sorted_sortDescBy (key : α → β) [LinearOrder β] (l : List α) :
    (sortDescBy key l).Sorted (keyGe key) :=
  List.sorted_insertionSort (keyGe key) l

theorem mem_sortDescBy (key : α → β) [LinearOrder β] (l : List α) (a : α) :
    a ∈ sortDescBy key l ↔ a ∈ l :=
  (List.perm_insertionSort (keyGe key) l).mem_iff

theorem length_sortDescBy (key : α → β) [LinearOrder β] (l : List α) :
    (sortDescBy key l).length = l.length :=
  (List.perm_insertionSort (keyGe key) l).length_eq

theorem bulkLoop_results_length (now : Nat) (agents : List Agent)
    (l : List AgentBody) : (bulkLoop now agents l).2.length = l.length := by
  induction l generalizing agents with
  | nil => simp [bulkLoop]
  | cons d ds ih => simp [bulkLoop, ih]

theorem find?_eq_some_of_any (p : α → Bool) (l : List α) (h : l.any p = true) :
    ∃ x, l.find? p = some x := by
  induction l with
  | nil => simp at h
  | cons x xs ih =>
    by_cases hx : p x = true
    · exact ⟨x, by simp [List.find?, hx]⟩
    · have hb : p x = false := by simpa using hx
      rcases ih (by simpa [hb] using h) with ⟨y, hy⟩
      exact ⟨y, by simp [List.find?, hb, hy]⟩

theorem find?_append_of_any_false (p : α → Bool) (l1 l2 : List α)
    (h : l1.any p = false) : (l1 ++ l2).find? p = l2.find? p := by
  induction l1 with
  | nil => simp
  | cons x xs ih =>
    have hx : p x = false := by
      simp only [List.any_cons, Bool.or_eq_false_iff] at h
      exact h.1
    have hxs : xs.any p = false := by
      simp only [List.any_cons, Bool.or_eq_false_iff] at h
      exact h.2
    simp [List.find?, hx, ih hxs]

/-! ## Claim theorems -/

/-- C1: POST /agents upserts by id so that an immediately following
GET /agents/:id returns the last-written record; each personality/romance
trait prefers the flat field over the nested-object fallback, an absent name
is stored as the empty string, and an absent status is stored as "single". -/
theorem c1_post_agents_upsert_roundtrip (db : DB) (d : AgentBody) (now : Nat) :
    getAgentById (postAgents db d now).1 d.id = some (postAgents db d now).2
    ∧ (d.name = none → (postAgents db d now).2.name = "")
    ∧ (d.status = none → (postAgents db d now).2.status = "single")
    ∧ (∀ v : Int, d.openness = some v → (postAgents db d now).2.openness = some v)
    ∧ (∀ w : Int, d.openness = none → d.bigFive.bind BigFiveBody.openness = some w →
        (postAgents db d now).2.openness = some w)
    ∧ (∀ v : Int, d.conscientiousness = some v →
        (postAgents db d now).2.conscientiousness = some v)
    ∧ (∀ w : Int, d.conscientiousness = none →
        d.bigFive.bind BigFiveBody.conscientiousness = some w →
        (postAgents db d now).2.conscientiousness = some w)
    ∧ (∀ v : Int, d.extraversion = some v → (postAgents db d now).2.extraversion = some v)
    ∧ (∀ w : Int, d.extraversion = none → d.bigFive.bind BigFiveBody.extraversion = some w →
        (postAgents db d now).2.extraversion = some w)
    ∧ (∀ v : Int, d.agreeableness = some v → (postAgents db d now).2.agreeableness = some v)
    ∧ (∀ w : Int, d.agreeableness = none → d.bigFive.bind BigFiveBody.agreeableness = some w →
        (postAgents db d now).2.agreeableness = some w)
    ∧ (∀ v : Int, d.neuroticism = some v → (postAgents db d now).2.neuroticism = some v)
    ∧ (∀ w : Int, d.neuroticism = none → d.bigFive.bind BigFiveBody.neuroticism = some w →
        (postAgents db d now).2.neuroticism = some w)
    ∧ (∀ v : Int, d.flirtatiousness = some v →
        (postAgents db d now).2.flirtatiousness = some v)
    ∧ (∀ w : Int, d.flirtatiousness = none →
        d.romance.bind RomanceBody.flirtatiousness = some w →
        (postAgents db d now).2.flirtatiousness = some w)
    ∧ (∀ v : Int, d.jealousy = some v → (postAgents db d now).2.jealousy = some v)
    ∧ (∀ w : Int, d.jealousy = none → d.romance.bind RomanceBody.jealousy = some w →
        (postAgents db d now).2.jealousy = some w)
    ∧ (∀ v : Int, d.commitment = some v → (postAgents db d now).2.commitment = some v)
    ∧ (∀ w : Int, d.commitment = none → d.romance.bind RomanceBody.commitment = some w →
        (postAgents db d now).2.commitment = some w)
    ∧ (∀ v : Int, d.emotionalExpression = some v →
        (postAgents db d now).2.emotionalExpression = some v)
    ∧ (∀ w : Int, d.emotionalExpression = none →
        d.romance.bind RomanceBody.emotionalExpression = some w →
        (postAgents db d now).2.emotionalExpression = some w)
    ∧ (∀ v : Int, d.playfulness = some v → (postAgents db d now).2.playfulness = some v)
    ∧ (∀ w : Int, d.playfulness = none → d.romance.bind RomanceBody.playfulness = some w →
        (postAgents db d now).2.playfulness = some w) := by
  refine ⟨find?_upsertAgentList d now db.agents, ?_⟩
  have hres : (postAgents db d now).2 = upsertAgentResult db.agents d now := rfl
  rw [hres]
  unfold upsertAgentResult
  cases hf : db.agents.find? (fun a => a.id == d.id) with
  | none =>
    repeat' apply And.intro
    all_goals intros
    all_goals simp_all only [agentCreateData, jsOrStr, nullish, updOpt]
  | some a =>
    repeat' apply And.intro
    all_goals intros
    all_goals simp_all only [agentUpdateData, jsOrStr, nullish, updOpt]

/-- C2 counterexample: POST /agents/bulk does not apply the same status
defaulting as POST /agents.  On the same payload for an existing agent whose
stored status is "coupled", the bulk endpoint leaves the status "coupled"
while the single-agent endpoint writes "single" (the payload's status). -/
theorem c2_bulk_status_counterexample :
    (getAgentById
        (postAgentsBulk { agents := [{ id := "a", status := "coupled" }] }
            (some [{ id := "a", status := some "single" }]) 0).1 "a").map
        Agent.status = some "coupled"
    ∧ (getAgentById
        (postAgents { agents := [{ id := "a", status := "coupled" }] }
            { id := "a", status := some "single" } 0).1 "a").map
        Agent.status = some "single" := by
  constructor <;> rfl

/-- C2 (amended): POST /agents/bulk rejects a non-array body with 400, and on
success returns the count and the full list of upserted records; each payload
is upserted by id with the name default and with trait precedence reversed
(nested object preferred over flat field), but the status field is never
written: an existing agent keeps its stored status and a created agent gets
the store's schema default. -/
theorem c2_bulk_upsert_amended (db : DB) (l : List AgentBody) (now : Nat)
    (agents : List Agent) (d : AgentBody) :
    postAgentsBulk db none now = (db, .badRequest "agents must be an array")
    ∧ (postAgentsBulk db (some l) now).2 =
        .ok true (bulkLoop now db.agents l).2.length (bulkLoop now db.agents l).2
    ∧ (bulkLoop now db.agents l).2.length = l.length
    ∧ (bulkUpsertAgentList d now agents).find? (fun a => a.id == d.id) =
        some (bulkUpsertAgentResult agents d now)
    ∧ (d.name = none → (bulkUpsertAgentResult agents d now).name = "")
    ∧ (∀ a, agents.find? (fun x => x.id == d.id) = some a →
        (bulkUpsertAgentResult agents d now).status = a.status)
    ∧ (agents.find? (fun x => x.id == d.id) = none →
        (bulkUpsertAgentResult agents d now).status = agentStatusDefault)
    ∧ (∀ v : Int, d.bigFive.bind BigFiveBody.openness = some v →
        (bulkUpsertAgentResult agents d now).openness = some v)
    ∧ (∀ w : Int, d.bigFive.bind BigFiveBody.openness = none → d.openness = some w →
        (bulkUpsertAgentResult agents d now).openness = some w)
    ∧ (∀ v : Int, d.bigFive.bind BigFiveBody.conscientiousness = some v →
        (bulkUpsertAgentResult agents d now).conscientiousness = some v)
    ∧ (∀ w : Int, d.bigFive.bind BigFiveBody.conscientiousness = none →
        d.conscientiousness = some w →
        (bulkUpsertAgentResult agents d now).conscientiousness = some w)
    ∧ (∀ v : Int, d.bigFive.bind BigFiveBody.extraversion = some v →
        (bulkUpsertAgentResult agents d now).extraversion = some v)
    ∧ (∀ w : Int, d.bigFive.bind BigFiveBody.extraversion = none → d.extraversion = some w →
        (bulkUpsertAgentResult agents d now).extraversion = some w)
    ∧ (∀ v : Int, d.bigFive.bind BigFiveBody.agreeableness = some v →
        (bulkUpsertAgentResult agents d now).agreeableness = some v)
    ∧ (∀ w : Int, d.bigFive.bind BigFiveBody.agreeableness = none → d.agreeableness = some w →
        (bulkUpsertAgentResult agents d now).agreeableness = some w)
    ∧ (∀ v : Int, d.bigFive.bind BigFiveBody.neuroticism = some v →
        (bulkUpsertAgentResult agents d now).neuroticism = some v)
    ∧ (∀ w : Int, d.bigFive.bind BigFiveBody.neuroticism = none → d.neuroticism = some w →
        (bulkUpsertAgentResult agents d now).neuroticism = some w)
    ∧ (∀ v : Int, d.romance.bind RomanceBody.flirtatiousness = some v →
        (bulkUpsertAgentResult agents d now).flirtatiousness = some v)
    ∧ (∀ w : Int, d.romance.bind RomanceBody.flirtatiousness = none →
        d.flirtatiousness = some w →
        (bulkUpsertAgentResult agents d now).flirtatiousness = some w)
    ∧ (∀ v : Int, d.romance.bind RomanceBody.jealousy = some v →
        (bulkUpsertAgentResult agents d now).jealousy = some v)
    ∧ (∀ w : Int, d.romance.bind RomanceBody.jealousy = none → d.jealousy = some w →
        (bulkUpsertAgentResult agents d now).jealousy = some w)
    ∧ (∀ v : Int, d.romance.bind RomanceBody.commitment = some v →
        (bulkUpsertAgentResult agents d now).commitment = some v)
    ∧ (∀ w : Int, d.romance.bind RomanceBody.commitment = none → d.commitment = some w →
        (bulkUpsertAgentResult agents d now).commitment = some w)
    ∧ (∀ v : Int, d.romance.bind RomanceBody.emotionalExpression = some v →
        (bulkUpsertAgentResult agents d now).emotionalExpression = some v)
    ∧ (∀ w : Int, d.romance.bind RomanceBody.emotionalExpression = none →
        d.emotionalExpression = some w →
        (bulkUpsertAgentResult agents d now).emotionalExpression = some w)
    ∧ (∀ v : Int, d.romance.bind RomanceBody.playfulness = some v →
        (bulkUpsertAgentResult agents d now).playfulness = some v)
    ∧ (∀ w : Int, d.romance.bind RomanceBody.playfulness = none → d.playfulness = some w →
        (bulkUpsertAgentResult agents d now).playfulness = some w) := by
  refine ⟨rfl, ?_, bulkLoop_results_length now db.agents l,
    find?_bulkUpsertAgentList d now agents, ?_⟩
  · simp [postAgentsBulk]
  unfold bulkUpsertAgentResult
  cases hf : agents.find? (fun a => a.id == d.id) with
  | none =>
    repeat' apply And.intro
    all_goals intros
    all_goals simp_all only [bulkAgentCreateData, jsOrStr, nullish, updOpt,
      Option.some.injEq, reduceCtorEq]
  | some a =>
    repeat' apply And.intro
    all_goals intros
    all_goals simp_all only [bulkAgentUpdateData, jsOrStr, nullish, updOpt,
      Option.some.injEq, reduceCtorEq]

/-- C3: POST /relationships is an idempotent create-or-fetch: creating for
(X, Y) and then for (Y, X) returns the same relationship id both times; on a
pair-uniqueness violation the handler returns the existing record for the
pair in either order; an absent compatibilityScore defaults to 50 and an
absent status to "talking". -/
theorem c3_post_relationships_create_or_fetch (db : DB) (X Y : String)
    (cs1 cs2 : Option Int) (st1 st2 : Option String) (n1 n2 : Nat) :
    (∃ i : Nat,
        (postRelationships db ⟨X, Y, cs1, st1⟩ n1).2.map (fun e => e.rel.id) = some i
        ∧ (postRelationships (postRelationships db ⟨X, Y, cs1, st1⟩ n1).1
            ⟨Y, X, cs2, st2⟩ n2).2.map (fun e => e.rel.id) = some i)
    ∧ (pairConstraintViolated db.relationships X Y = false →
        ∃ e, (postRelationships db ⟨X, Y, cs1, st1⟩ n1).2 = some e
          ∧ (cs1 = none → e.rel.compatibilityScore = 50)
          ∧ (st1 = none → e.rel.status = "talking")) := by
  have hMP : matchesPair Y X = matchesPair X Y := funext (matchesPair_symm Y X)
  by_cases hv : pairConstraintViolated db.relationships X Y = true
  · -- the pair already exists: both calls fetch the same first match
    have hv' : db.relationships.any (matchesPair X Y) = true := hv
    rcases find?_eq_some_of_any _ _ hv' with ⟨E, hE⟩
    have hv2 : pairConstraintViolated db.relationships Y X = true := by
      simpa [pairConstraintViolated, hMP] using hv'
    refine ⟨⟨E.id, ?_, ?_⟩, ?_⟩
    · simp [postRelationships, hv, hE, expandRel]
    · have h1 : (postRelationships db ⟨X, Y, cs1, st1⟩ n1).1 = db := by
        simp [postRelationships, hv]
      rw [h1]
      simp [postRelationships, hv2, hMP, hE, expandRel]
    · intro hfalse
      rw [hv] at hfalse
      exact absurd hfalse (by simp)
  · -- the pair is new: the first call creates, the second fetches the row
    have hvf : pairConstraintViolated db.relationships X Y = false := by
      simpa using hv
    have hany : db.relationships.any (matchesPair X Y) = false := hvf
    set r : Relationship :=
      { id := db.relationships.length
        agent1Id := X
        agent2Id := Y
        compatibilityScore := jsOrInt cs1 50
        status := jsOrStr st1 "talking"
        healthScore := none
        endedAt := none
        createdAt := n1
        updatedAt := n1 } with hr
    have h1 : (postRelationships db ⟨X, Y, cs1, st1⟩ n1).1 =
        { db with relationships := db.relationships ++ [r] } := by
      simp [postRelationships, hvf, hr]
    have hself : matchesPair Y X r = true := by
      simp [matchesPair, hr]
    have hv2 : pairConstraintViolated (db.relationships ++ [r]) Y X = true := by
      simp only [pairConstraintViolated, List.any_append, List.any_cons,
        List.any_nil, hself, Bool.or_true, Bool.true_or, Bool.or_false]
    have hany2 : db.relationships.any (matchesPair Y X) = false := by
      simpa [pairConstraintViolated, hMP] using hany
    have hfind : (db.relationships ++ [r]).find? (matchesPair Y X) = some r := by
      rw [find?_append_of_any_false _ _ _ hany2]
      simp [List.find?, hself]
    refine ⟨⟨r.id, ?_, ?_⟩, ?_⟩
    · simp [postRelationships, hvf, expandRel]
    · rw [h1]
      simp [postRelationships, hv2, hfind, expandRel]
    · intro _
      refine ⟨expandRel db r, by simp [postRelationships, hvf], ?_, ?_⟩
      · intro hc; simp [expandRel, hr, hc, jsOrInt]
      · intro hs; simp [expandRel, hr, hs, jsOrStr]

/-- C4: PUT /relationships/:id applies exactly the fields present among
status, healthScore and endedAt, leaves absent fields and all other data
fields unchanged in the stored relationship, and on success emits the
updated, agent-expanded record on the villa-feed topic as
"relationship-update". -/
theorem c4_put_relationship_partial_update (db : DB) (id : Nat)
    (b : RelUpdateBody) (r : Relationship)
    (h : db.relationships.find? (fun x => x.id == id) = some r) :
    (putRelationship db id b).2.1 = some (expandRel (putRelationship db id b).1 (relUpdateData b r))
    ∧ (putRelationship db id b).1.relationships.find? (fun x => x.id == id) =
        some (relUpdateData b r)
    ∧ (∀ s, b.status = some s → (relUpdateData b r).status = s)
    ∧ (b.status = none → (relUpdateData b r).status = r.status)
    ∧ (∀ v, b.healthScore = some v → (relUpdateData b r).healthScore = some v)
    ∧ (b.healthScore = none → (relUpdateData b r).healthScore = r.healthScore)
    ∧ (∀ t, b.endedAt = some t → (relUpdateData b r).endedAt = some t)
    ∧ (b.endedAt = none → (relUpdateData b r).endedAt = r.endedAt)
    ∧ (relUpdateData b r).id = r.id
    ∧ (relUpdateData b r).agent1Id = r.agent1Id
    ∧ (relUpdateData b r).agent2Id = r.agent2Id
    ∧ (relUpdateData b r).compatibilityScore = r.compatibilityScore
    ∧ (relUpdateData b r).createdAt = r.createdAt
    ∧ (relUpdateData b r).updatedAt = r.updatedAt
    ∧ (putRelationship db id b).2.2 =
        [⟨"villa-feed", "relationship-update",
          .rel (expandRel (putRelationship db id b).1 (relUpdateData b r))⟩] := by
  have hid : ∀ x : Relationship, (x.id == id) = true → ((relUpdateData b x).id == id) = true := by
    intro x hx
    simpa [relUpdateData] using hx
  have hfind : (updateFirst (fun x => x.id == id) (relUpdateData b)
      db.relationships).find? (fun x => x.id == id) = some (relUpdateData b r) := by
    rw [find?_updateFirst _ _ _ hid, h]
    rfl
  refine ⟨?_, ?_, ?_⟩
  · simp [putRelationship, h]
  · simp only [putRelationship, h]
    exact hfind
  repeat' apply And.intro
  all_goals intros
  all_goals simp_all only [relUpdateData, updVal, updOpt, putRelationship]

/-- Concrete store used by the C4 witness. -/
def relFixture : Relationship :=
  { id := 3, agent1Id := "x", agent2Id := "y", status := "talking",
    healthScore := some 80, endedAt := none }

/-- Concrete store used by the C4 witness. -/
def dbRelFixture : DB := { relationships := [relFixture] }

/-- C4 witness: the partial-update and broadcast behaviour at a concrete
store, relationship and body. -/
theorem c4_put_relationship_partial_update_witness :
    (putRelationship dbRelFixture 3 { status := some "coupled" }).2.1 =
      some (expandRel (putRelationship dbRelFixture 3 { status := some "coupled" }).1
        (relUpdateData { status := some "coupled" } relFixture)) :=
  (c4_put_relationship_partial_update dbRelFixture 3 { status := some "coupled" }
    relFixture (by rfl)).1

/-- C5: GET /villa-feed?limit=N merges up to N most recent public events and
up to N most recent messages, tags each item "event" or "message", sorts the
merge by timestamp descending and returns at most N items (N being the parsed
limit with fallback 50). -/
theorem c5_villa_feed_merge (db : DB) (limitQ : Option Nat) :
    (getVillaFeed db limitQ).length ≤ jsOrNat limitQ 50
    ∧ List.Sorted (fun a b => FeedItem.timestamp b ≤ FeedItem.timestamp a)
        (getVillaFeed db limitQ)
    ∧ ∀ x ∈ getVillaFeed db limitQ,
        (FeedItem.type x = "event" ∧ ∃ e ∈ db.events, e.isPublic = true ∧ x = FeedItem.ev e)
        ∨ (FeedItem.type x = "message" ∧ ∃ m ∈ db.messages, x = FeedItem.msg m) := by
  refine ⟨?_, ?_, ?_⟩
  · simp only [getVillaFeed, List.length_take]
    exact min_le_left _ _
  · exact List.Pairwise.sublist (List.take_sublist _ _) (sorted_sortDescBy _ _)
  · intro x hx
    have hx1 : x ∈ sortDescBy FeedItem.timestamp
        (((sortDescBy Event.createdAt (db.events.filter Event.isPublic)).take
            (jsOrNat limitQ 50)).map FeedItem.ev ++
          ((sortDescBy Message.createdAt db.messages).take
            (jsOrNat limitQ 50)).map FeedItem.msg) :=
      List.take_subset _ _ hx
    rw [mem_sortDescBy] at hx1
    rcases List.mem_append.mp hx1 with h | h
    · rcases List.mem_map.mp h with ⟨e, he, rfl⟩
      have he2 : e ∈ sortDescBy Event.createdAt (db.events.filter Event.isPublic) :=
        List.take_subset _ _ he
      rw [mem_sortDescBy] at he2
      have hf := List.mem_filter.mp he2
      exact Or.inl ⟨rfl, e, hf.1, hf.2, rfl⟩
    · rcases List.mem_map.mp h with ⟨m, hm, rfl⟩
      have hm2 : m ∈ sortDescBy Message.createdAt db.messages :=
        List.take_subset _ _ hm
      rw [mem_sortDescBy] at hm2
      exact Or.inr ⟨rfl, m, hm2, rfl⟩

/-- C6: GET /highlights returns only events that are featured or have drama
score at least 75, at most 20 of them, ordered by drama score descending. -/
theorem c6_highlights_filter (db : DB) :
    (∀ e ∈ getHighlights db,
        (e.isFeatured = true ∨ 75 ≤ e.dramaScore) ∧ e ∈ db.events)
    ∧ (getHighlights db).length ≤ 20
    ∧ List.Sorted (fun a b => Event.dramaScore b ≤ Event.dramaScore a)
        (getHighlights db) := by
  refine ⟨?_, ?_, ?_⟩
  · intro e he
    have he1 : e ∈ sortDescBy Event.dramaScore
        (db.events.filter (fun e => e.isFeatured || decide (75 ≤ e.dramaScore))) :=
      List.take_subset _ _ he
    rw [mem_sortDescBy] at he1
    have hf := List.mem_filter.mp he1
    refine ⟨?_, hf.1⟩
    rcases Bool.or_eq_true_iff.mp hf.2 with h | h
    · exact Or.inl h
    · exact Or.inr (of_decide_eq_true h)
  · simp only [getHighlights, List.length_take]
    exact min_le_left _ _
  · exact List.Pairwise.sublist (List.take_sublist _ _) (sorted_sortDescBy _ _)

/-- C8: GET /relationships returns only relationships whose status is
"talking" or "coupled" (never "ended" or anything else), newest-updated
first, with both agents expanded from the store. -/
theorem c8_get_relationships_active (db : DB) :
    (∀ x ∈ getRelationships db,
        (x.rel.status = "talking" ∨ x.rel.status = "coupled")
        ∧ x.rel.status ≠ "ended"
        ∧ x.rel ∈ db.relationships
        ∧ x.agent1 = db.agents.find? (fun a => a.id == x.rel.agent1Id)
        ∧ x.agent2 = db.agents.find? (fun a => a.id == x.rel.agent2Id))
    ∧ List.Sorted (fun a b => b.rel.updatedAt ≤ a.rel.updatedAt)
        (getRelationships db) := by
  constructor
  · intro x hx
    rcases List.mem_map.mp hx with ⟨r, hr, rfl⟩
    rw [mem_sortDescBy] at hr
    have hf := List.mem_filter.mp hr
    have hst : r.status = "talking" ∨ r.status = "coupled" := by
      rcases Bool.or_eq_true_iff.mp hf.2 with h | h
      · exact Or.inl (by simpa using h)
      · exact Or.inr (by simpa using h)
    refine ⟨hst, ?_, hf.1, rfl, rfl⟩
    rcases hst with h | h <;> simp [expandRel, h]
  · exact List.Pairwise.map _ (fun a b hab => hab)
      (sorted_sortDescBy Relationship.updatedAt _)

/-- C7: POST /waitlist rejects a missing email or one without "@" with a 400;
a well-formed, unregistered email is stored and acknowledged with its id; a
second POST of the same email gets the 400 "already registered" response and
adds no duplicate row. -/
theorem c7_waitlist_unique_email (db : DB) (s : String) (n1 n2 : Nat) :
    postWaitlist db none n1 = (db, .badRequest "Invalid email")
    ∧ (s.contains '@' = false →
        postWaitlist db (some s) n1 = (db, .badRequest "Invalid email"))
    ∧ ((s == "" || !(s.contains '@')) = false →
        db.waitlist.any (fun e => e.email == s) = false →
        (postWaitlist db (some s) n1).2 = .ok true db.waitlist.length
        ∧ (postWaitlist db (some s) n1).1.waitlist =
            db.waitlist ++ [{ id := db.waitlist.length, email := s, createdAt := n1 }]
        ∧ postWaitlist (postWaitlist db (some s) n1).1 (some s) n2 =
            ((postWaitlist db (some s) n1).1,
              .badRequest "Email already registered")) := by
  refine ⟨rfl, ?_, ?_⟩
  · intro h
    simp [postWaitlist, h]
  · intro h1 h2
    have hpost : postWaitlist db (some s) n1 =
        ({ db with waitlist :=
            db.waitlist ++ [{ id := db.waitlist.length, email := s, createdAt := n1 }] },
          .ok true db.waitlist.length) := by
      simp only [postWaitlist, h1, h2, Bool.false_eq_true, if_false]
    refine ⟨by rw [hpost], by rw [hpost], ?_⟩
    rw [hpost]
    have hany : (db.waitlist ++
        [({ id := db.waitlist.length, email := s, createdAt := n1 } : WaitlistEntry)]).any
          (fun e => e.email == s) = true := by
      simp [List.any_append]
    simp only [postWaitlist, h1, Bool.false_eq_true, if_false, hany, if_true]

/-- C9: a successful POST /messages creates the message, then sets the parent
conversation's last-message timestamp to the (later) current time, so a read
of the conversation shows a last-message timestamp at or after the message's
creation timestamp, and the message is broadcast to the villa-feed topic as
"new-message" in the message envelope. -/
theorem c9_post_message_touches_conversation (db : DB) (b : MessageBody)
    (t1 t2 : Nat) (c : Conversation)
    (hc : db.conversations.find? (fun x => x.id == b.conversationId) = some c)
    (ht : t1 ≤ t2) :
    ∃ m : Message, (postMessage db b t1 t2).2.1 = some m
      ∧ m.createdAt = t1
      ∧ m.createdAt ≤ t2
      ∧ getConversationById (postMessage db b t1 t2).1 b.conversationId =
          some { c with lastMessageAt := some t2 }
      ∧ (⟨"villa-feed", "new-message", .msgEnvelope "message" m t1⟩ : Emission) ∈
          (postMessage db b t1 t2).2.2 := by
  have hid : ∀ x : Conversation, (x.id == b.conversationId) = true →
      (({ x with lastMessageAt := some t2 } : Conversation).id == b.conversationId) = true := by
    intro x hx
    simpa using hx
  have hfind : (updateFirst (fun c => c.id == b.conversationId)
      (fun c => { c with lastMessageAt := some t2 })
      db.conversations).find? (fun x => x.id == b.conversationId) =
        some { c with lastMessageAt := some t2 } := by
    rw [find?_updateFirst _ _ _ hid, hc]
    rfl
  refine ⟨⟨db.messages.length, b.conversationId, b.fromId, b.toId, b.content,
             jsOrNullStr b.sentiment, t1⟩, ?_, rfl, ht, ?_, ?_⟩
  · simp [postMessage, hc]
  · simp only [postMessage, hc, getConversationById]
    exact hfind
  · simp [postMessage, hc]

/-- Concrete store used by the C9 witness. -/
def convFixture : Conversation := { id := "c1", relationshipId := 0 }

/-- Concrete store used by the C9 witness. -/
def dbConvFixture : DB := { conversations := [convFixture] }

/-- Concrete request body used by the C9 witness. -/
def msgBodyFixture : MessageBody :=
  { conversationId := "c1", fromId := "a", toId := "b", content := "hi" }

/-- C9 witness: the create-then-touch-then-broadcast behaviour at a concrete
store, body and pair of clock readings. -/
theorem c9_post_message_touches_conversation_witness :
    ∃ m : Message, (postMessage dbConvFixture msgBodyFixture 1 2).2.1 = some m
      ∧ m.createdAt = 1
      ∧ m.createdAt ≤ 2
      ∧ getConversationById (postMessage dbConvFixture msgBodyFixture 1 2).1 "c1" =
          some { convFixture with lastMessageAt := some 2 }
      ∧ (⟨"villa-feed", "new-message", .msgEnvelope "message" m 1⟩ : Emission) ∈
          (postMessage dbConvFixture msgBodyFixture 1 2).2.2 :=
  c9_post_message_touches_conversation dbConvFixture msgBodyFixture 1 2 convFixture
    (by rfl) (by decide)

/-- C10: PUT /agents/:id/status with an absent (or empty-string) currentPartner
clears the stored partner reference to null rather than leaving it unchanged,
while setting the status to the supplied value and lastActive to now; the
stored row equals the returned one. -/
theorem c10_put_agent_status_clears_partner (db : DB) (id st : String)
    (now : Nat) (a : Agent)
    (h : db.agents.find? (fun x => x.id == id) = some a) :
    (putAgentStatus db id (some st) none now).2.map Agent.currentPartner = some none
    ∧ (putAgentStatus db id (some st) none now).2.map Agent.status = some st
    ∧ (putAgentStatus db id (some st) none now).2.map Agent.lastActive = some now
    ∧ getAgentById (putAgentStatus db id (some st) none now).1 id =
        (putAgentStatus db id (some st) none now).2
    ∧ (putAgentStatus db id (some st) (some "") now).2.map Agent.currentPartner =
        some none := by
  have hid : ∀ cp : Option String, ∀ x : Agent, (x.id == id) = true →
      (({ x with status := updVal (some st) x.status,
                 currentPartner := jsOrNullStr cp, lastActive := now } : Agent).id == id) = true := by
    intro cp x hx
    simpa using hx
  refine ⟨?_, ?_, ?_, ?_, ?_⟩
  · simp [putAgentStatus, h, jsOrNullStr]
  · simp [putAgentStatus, h, updVal]
  · simp [putAgentStatus, h]
  · simp only [putAgentStatus, h, getAgentById]
    rw [find?_updateFirst _ _ _ (hid none), h]
    rfl
  · simp [putAgentStatus, h, jsOrNullStr]

/-- Concrete store used by the C10 witness: the agent has a current partner
that the update must clear. -/
def agentFixture : Agent := { id := "a", status := "talking", currentPartner := some "b" }

/-- Concrete store used by the C10 witness. -/
def dbAgentFixture : DB := { agents := [agentFixture] }

/-- C10 witness: the partner-clearing update at a concrete store whose agent
has a current partner. -/
theorem c10_put_agent_status_clears_partner_witness :
    (putAgentStatus dbAgentFixture "a" (some "coupled") none 7).2.map
        Agent.currentPartner = some none
    ∧ (putAgentStatus dbAgentFixture "a" (some "coupled") none 7).2.map
        Agent.status = some "coupled"
    ∧ (putAgentStatus dbAgentFixture "a" (some "coupled") none 7).2.map
        Agent.lastActive = some 7
    ∧ getAgentById (putAgentStatus dbAgentFixture "a" (some "coupled") none 7).1 "a" =
        (putAgentStatus dbAgentFixture "a" (some "coupled") none 7).2
    ∧ (putAgentStatus dbAgentFixture "a" (some "coupled") (some "") 7).2.map
        Agent.currentPartner = some none :=
  c10_put_agent_status_clears_partner dbAgentFixture "a" "coupled" 7 agentFixture
    (by rfl)

end Clawmates
